import Mathlib

/-!
Verification development for the xiaomi raphael device-support layer:
the fingerprint HAL bridge (`src/fingerprint/BiometricsFingerprint.cpp`)
and the boot-time variant selector (`src/init/init_xiaomi_raphael.cpp`).

The C++ sources are shallowly embedded: pure translation tables become
Lean functions; the stateful boost-capability cache and the `notify`
callback dispatcher become explicit state-passing functions parameterised
by the behaviour of the external world (driver, power service, client
callback); error codes are `Int`.
-/

/-! ## Status enumerations (HIDL RequestStatus and fingerprint enums) -/

/-- Closed status enumeration returned to the host framework
(`RequestStatus` of biometrics fingerprint HIDL 2.1). -/
inductive RequestStatus where
  | SYS_UNKNOWN
  | SYS_OK
  | SYS_ENOENT
  | SYS_EAGAIN
  | SYS_EINTR
  | SYS_EIO
  | SYS_EBUSY
  | SYS_EINVAL
  | SYS_ENOMEM
  | SYS_EACCES
  | SYS_EFAULT
  | SYS_ENOSPC
  | SYS_ETIMEDOUT
  deriving DecidableEq, Repr

/-- HIDL-compliant fingerprint error enumeration. -/
inductive FingerprintError where
  | ERROR_NO_ERROR
  | ERROR_HW_UNAVAILABLE
  | ERROR_UNABLE_TO_PROCESS
  | ERROR_TIMEOUT
  | ERROR_NO_SPACE
  | ERROR_CANCELED
  | ERROR_UNABLE_TO_REMOVE
  | ERROR_LOCKOUT
  | ERROR_VENDOR
  deriving DecidableEq, Repr

/-- HIDL-compliant fingerprint acquired-info enumeration. -/
inductive FingerprintAcquiredInfo where
  | ACQUIRED_GOOD
  | ACQUIRED_PARTIAL
  | ACQUIRED_INSUFFICIENT
  | ACQUIRED_IMAGER_DIRTY
  | ACQUIRED_TOO_SLOW
  | ACQUIRED_TOO_FAST
  | ACQUIRED_VENDOR
  deriving DecidableEq, Repr

/-! ## Vendor ABI constants

Modelled from the spec: the numeric values of the `FINGERPRINT_ERROR_*`
and `FINGERPRINT_ACQUIRED_*` constants live in the externally fixed vendor
driver ABI header `hardware/fingerprint.h`, which is not under `src/`;
the spec describes them as a fixed table of listed codes below a
vendor-base threshold, with the vendor band starting at the base. The
standard values of that ABI are used. -/

def FINGERPRINT_ERROR_HW_UNAVAILABLE : Int := 1
def FINGERPRINT_ERROR_UNABLE_TO_PROCESS : Int := 2
def FINGERPRINT_ERROR_TIMEOUT : Int := 3
def FINGERPRINT_ERROR_NO_SPACE : Int := 4
def FINGERPRINT_ERROR_CANCELED : Int := 5
def FINGERPRINT_ERROR_UNABLE_TO_REMOVE : Int := 6
def FINGERPRINT_ERROR_LOCKOUT : Int := 7
def FINGERPRINT_ERROR_VENDOR_BASE : Int := 1000

def FINGERPRINT_ACQUIRED_GOOD : Int := 0
def FINGERPRINT_ACQUIRED_PARTIAL : Int := 1
def FINGERPRINT_ACQUIRED_INSUFFICIENT : Int := 2
def FINGERPRINT_ACQUIRED_IMAGER_DIRTY : Int := 3
def FINGERPRINT_ACQUIRED_TOO_SLOW : Int := 4
def FINGERPRINT_ACQUIRED_TOO_FAST : Int := 5
def FINGERPRINT_ACQUIRED_VENDOR_BASE : Int := 1000

/-- Message type tags of `fingerprint_msg_t` (vendor ABI,
`hardware/fingerprint.h`). -/
def FINGERPRINT_ERROR : Int := -1
def FINGERPRINT_ACQUIRED : Int := 1
def FINGERPRINT_TEMPLATE_ENROLLING : Int := 3
def FINGERPRINT_TEMPLATE_REMOVED : Int := 4
def FINGERPRINT_AUTHENTICATED : Int := 5
def FINGERPRINT_TEMPLATE_ENUMERATING : Int := 6

/-! ## Status code mapping (`BiometricsFingerprint::ErrorFilter`) -/

/-- Embedding of `BiometricsFingerprint::ErrorFilter`: maps a vendor
integer return code to the closed `RequestStatus` enumeration; every
code outside the fixed table falls to `SYS_UNKNOWN`. -/
def ErrorFilter (error : Int) : RequestStatus :=
  if error = 0 then RequestStatus.SYS_OK
  else if error = -2 then RequestStatus.SYS_ENOENT
  else if error = -4 then RequestStatus.SYS_EINTR
  else if error = -5 then RequestStatus.SYS_EIO
  else if error = -11 then RequestStatus.SYS_EAGAIN
  else if error = -12 then RequestStatus.SYS_ENOMEM
  else if error = -13 then RequestStatus.SYS_EACCES
  else if error = -14 then RequestStatus.SYS_EFAULT
  else if error = -16 then RequestStatus.SYS_EBUSY
  else if error = -22 then RequestStatus.SYS_EINVAL
  else if error = -28 then RequestStatus.SYS_ENOSPC
  else if error = -110 then RequestStatus.SYS_ETIMEDOUT
  else RequestStatus.SYS_UNKNOWN

/-- Embedding of `BiometricsFingerprint::VendorErrorFilter`: translates a
traditional-HAL error into a HIDL `FingerprintError` with a secondary
vendor code (the pair returned models `(result, *vendorCode)`; the C++
function sets `*vendorCode = 0` first and overwrites it only in the
vendor band). -/
def VendorErrorFilter (error : Int) : FingerprintError × Int :=
  if error = FINGERPRINT_ERROR_HW_UNAVAILABLE then
    (FingerprintError.ERROR_HW_UNAVAILABLE, 0)
  else if error = FINGERPRINT_ERROR_UNABLE_TO_PROCESS then
    (FingerprintError.ERROR_UNABLE_TO_PROCESS, 0)
  else if error = FINGERPRINT_ERROR_TIMEOUT then
    (FingerprintError.ERROR_TIMEOUT, 0)
  else if error = FINGERPRINT_ERROR_NO_SPACE then
    (FingerprintError.ERROR_NO_SPACE, 0)
  else if error = FINGERPRINT_ERROR_CANCELED then
    (FingerprintError.ERROR_CANCELED, 0)
  else if error = FINGERPRINT_ERROR_UNABLE_TO_REMOVE then
    (FingerprintError.ERROR_UNABLE_TO_REMOVE, 0)
  else if error = FINGERPRINT_ERROR_LOCKOUT then
    (FingerprintError.ERROR_LOCKOUT, 0)
  else if FINGERPRINT_ERROR_VENDOR_BASE ≤ error then
    (FingerprintError.ERROR_VENDOR, error - FINGERPRINT_ERROR_VENDOR_BASE)
  else
    (FingerprintError.ERROR_UNABLE_TO_PROCESS, 0)

/-- Embedding of `BiometricsFingerprint::VendorAcquiredFilter`: translates
a traditional-HAL acquired message into a HIDL `FingerprintAcquiredInfo`
with a secondary vendor code. -/
def VendorAcquiredFilter (info : Int) : FingerprintAcquiredInfo × Int :=
  if info = FINGERPRINT_ACQUIRED_GOOD then
    (FingerprintAcquiredInfo.ACQUIRED_GOOD, 0)
  else if info = FINGERPRINT_ACQUIRED_PARTIAL then
    (FingerprintAcquiredInfo.ACQUIRED_PARTIAL, 0)
  else if info = FINGERPRINT_ACQUIRED_INSUFFICIENT then
    (FingerprintAcquiredInfo.ACQUIRED_INSUFFICIENT, 0)
  else if info = FINGERPRINT_ACQUIRED_IMAGER_DIRTY then
    (FingerprintAcquiredInfo.ACQUIRED_IMAGER_DIRTY, 0)
  else if info = FINGERPRINT_ACQUIRED_TOO_SLOW then
    (FingerprintAcquiredInfo.ACQUIRED_TOO_SLOW, 0)
  else if info = FINGERPRINT_ACQUIRED_TOO_FAST then
    (FingerprintAcquiredInfo.ACQUIRED_TOO_FAST, 0)
  else if FINGERPRINT_ACQUIRED_VENDOR_BASE ≤ info then
    (FingerprintAcquiredInfo.ACQUIRED_VENDOR, info - FINGERPRINT_ACQUIRED_VENDOR_BASE)
  else
    (FingerprintAcquiredInfo.ACQUIRED_INSUFFICIENT, 0)

/-! ## Authentication boost notifier (power HAL extension) -/

/-- Errno-style codes used by the boost notifier (Linux values; the C++
returns their negations). -/
def NO_ERROR : Int := 0
def EINVAL : Int := 22
def ENOTCONN : Int := 107
def EOPNOTSUPP : Int := 95

/-- Fixed boost name `kBoostHint` from the source. -/
def kBoostHint : String := "LAUNCH"

/-- Fixed boost duration `kBoostDurationMs` from the source. -/
def kBoostDurationMs : Int := 2000

/-- Outcome of a binder call into the power service, as observed by the
bridge (`ret.isOk()` / `ret.getExceptionCode() == EX_TRANSACTION_FAILED`). -/
inductive BinderOutcome where
  | ok
  | transactionFailed
  | otherFailure
  deriving DecidableEq, Repr

/-- Behaviour of the external power service during one interaction:
whether the service lookup and extension cast succeed, the outcome and
answer of the `isBoostSupported` query, and the outcome of `setBoost`. -/
structure PowerEnv where
  connectOk : Bool
  queryOutcome : BinderOutcome
  querySupported : Bool
  boostOutcome : BinderOutcome
  deriving DecidableEq, Repr

/-- Mutable boost-related fields of the bridge instance:
`mBoostHintIsSupported`, `mBoostHintSupportIsChecked`, and whether
`mPowerHalExtAidl` is non-null. -/
structure BoostState where
  boostHintIsSupported : Bool
  boostHintSupportIsChecked : Bool
  powerHalConnected : Bool
  deriving DecidableEq, Repr

/-- Embedding of `BiometricsFingerprint::connectPowerHalExt`: returns
`NO_ERROR` immediately when already connected; otherwise attempts the
service lookup and extension cast, caching the connection on success and
returning `-EINVAL` on failure. -/
def connectPowerHalExt (env : PowerEnv) (s : BoostState) : Int × BoostState :=
  if s.powerHalConnected then (NO_ERROR, s)
  else if env.connectOk then (NO_ERROR, { s with powerHalConnected := true })
  else (-EINVAL, s)

/-- Embedding of `BiometricsFingerprint::checkPowerHalExtBoostSupport`:
returns `(ret, state, number of isBoostSupported queries issued)`. A
binder transaction failure resets the cached connection and returns
`-ENOTCONN`; an unsupported answer returns `-EOPNOTSUPP`. -/
def checkPowerHalExtBoostSupport (env : PowerEnv) (s : BoostState) (boost : String) :
    Int × BoostState × Nat :=
  if boost.isEmpty then (-EINVAL, s, 0)
  else
    let c := connectPowerHalExt env s
    if c.1 ≠ NO_ERROR then (-EINVAL, c.2, 0)
    else
      match env.queryOutcome with
      | BinderOutcome.transactionFailed =>
          (-ENOTCONN, { c.2 with powerHalConnected := false }, 1)
      | BinderOutcome.otherFailure => (-EINVAL, c.2, 1)
      | BinderOutcome.ok =>
          if env.querySupported then (NO_ERROR, c.2, 1) else (-EOPNOTSUPP, c.2, 1)

/-- Embedding of `BiometricsFingerprint::isBoostHintSupported`: consults
the memoised capability flags first (zero service queries when already
checked); otherwise performs the capability check, caching a positive or
an unsupported answer but not a transport failure. -/
def isBoostHintSupported (env : PowerEnv) (s : BoostState) : Int × BoostState × Nat :=
  if s.boostHintSupportIsChecked then
    ((if s.boostHintIsSupported then NO_ERROR else -EOPNOTSUPP), s, 0)
  else
    let r := checkPowerHalExtBoostSupport env s kBoostHint
    if r.1 = NO_ERROR then
      (NO_ERROR,
       { r.2.1 with boostHintIsSupported := true, boostHintSupportIsChecked := true },
       r.2.2)
    else if r.1 = -EOPNOTSUPP then
      (-EOPNOTSUPP, { r.2.1 with boostHintSupportIsChecked := true }, r.2.2)
    else
      (r.1, r.2.1, r.2.2)

/-- Embedding of `BiometricsFingerprint::sendPowerHalExtBoost`: issues the
`setBoost` call; a binder transaction failure resets the cached
connection and returns `-ENOTCONN`. -/
def sendPowerHalExtBoost (env : PowerEnv) (s : BoostState) (boost : String)
    (_durationMs : Int) : Int × BoostState :=
  if boost.isEmpty then (-EINVAL, s)
  else
    let c := connectPowerHalExt env s
    if c.1 ≠ NO_ERROR then (-EINVAL, c.2)
    else
      match env.boostOutcome with
      | BinderOutcome.transactionFailed =>
          (-ENOTCONN, { c.2 with powerHalConnected := false })
      | BinderOutcome.otherFailure => (-EINVAL, c.2)
      | BinderOutcome.ok => (NO_ERROR, c.2)

/-- Embedding of `BiometricsFingerprint::sendAuthenticatedBoostHint`:
checks boost support, then requests the fixed-duration boost; returns
`(ret, state, number of isBoostSupported queries issued)`. -/
def sendAuthenticatedBoostHint (env : PowerEnv) (s : BoostState) : Int × BoostState × Nat :=
  let r := isBoostHintSupported env s
  if r.1 ≠ NO_ERROR then r
  else
    let b := sendPowerHalExtBoost env r.2.1 kBoostHint kBoostDurationMs
    (b.1, b.2, r.2.2)

/-! ## Driver messages and the notify dispatcher -/

/-- Embedding of `hw_auth_token_t` (packed struct of
`hardware/hw_auth_token.h`): version (1 byte), challenge (8), user id
(8), authenticator id (8), authenticator type (4), timestamp (8),
hmac (32 bytes, given by position). -/
structure HwAuthToken where
  version : Nat
  challenge : Nat
  user_id : Nat
  authenticator_id : Nat
  authenticator_type : Nat
  timestamp : Nat
  hmac : Nat → Nat

/-- Little-endian byte serialisation of a machine integer of `w` bytes. -/
def natLeBytes (n w : Nat) : List Nat :=
  (List.range w).map (fun i => n / 256 ^ i % 256)

/-- The raw bytes of a `hw_auth_token_t` as read by
`reinterpret_cast<const uint8_t*>(&msg->data.authenticated.hat)` over
`sizeof(hw_auth_token_t)` bytes. -/
def hwAuthTokenBytes (t : HwAuthToken) : List Nat :=
  natLeBytes t.version 1 ++ natLeBytes t.challenge 8 ++ natLeBytes t.user_id 8 ++
  natLeBytes t.authenticator_id 8 ++ natLeBytes t.authenticator_type 4 ++
  natLeBytes t.timestamp 8 ++ (List.range 32).map (fun i => t.hmac i % 256)

/-- Size in bytes of `hw_auth_token_t` (`sizeof(hw_auth_token_t)`). -/
def hwAuthTokenSize : Nat := 69

/-- Payload union of `fingerprint_msg_t`, modelled as one record holding
every arm of the C union (the dispatcher reads only the arm selected by
the type tag). -/
structure FingerMsgData where
  error : Int
  acquired_info : Int
  enroll_fid : Nat
  enroll_gid : Nat
  samples_remaining : Nat
  removed_fid : Nat
  removed_gid : Nat
  removed_remaining : Nat
  auth_fid : Nat
  auth_gid : Nat
  auth_hat : HwAuthToken
  enum_fid : Nat
  enum_gid : Nat
  enum_remaining : Nat

/-- Embedding of `fingerprint_msg_t`: an integer type tag plus the
payload union. -/
structure FingerprintMsg where
  type : Int
  data : FingerMsgData

/-- One invocation of the registered client callback, as observed by the
host framework. -/
inductive ClientCall where
  | onError (devId : Nat) (error : FingerprintError) (vendorCode : Int)
  | onAcquired (devId : Nat) (info : FingerprintAcquiredInfo) (vendorCode : Int)
  | onEnrollResult (devId fid gid remaining : Nat)
  | onRemoved (devId fid gid remaining : Nat)
  | onAuthenticated (devId fid gid : Nat) (token : List Nat)
  | onEnumerate (devId fid gid remaining : Nat)
  deriving DecidableEq, Repr

/-- External context of one `notify` invocation: whether a client
callback is registered, whether its invocation reports `isOk`, the
device id forwarded to the client, and the power-service behaviour for
the boost path. -/
structure NotifyEnv where
  clientRegistered : Bool
  cbOk : Bool
  devId : Nat
  penv : PowerEnv

/-- Observable outcome of one `notify` invocation: the client callback
invocations made, the bridge boost state afterwards, and the number of
`sendAuthenticatedBoostHint` attempts issued. -/
structure NotifyResult where
  calls : List ClientCall
  boost : BoostState
  boostAttempts : Nat
  deriving Repr

/-- Embedding of `BiometricsFingerprint::notify`: drops the message when
no client callback is registered; otherwise dispatches on the message
type tag (the switch has no default branch, so an unhandled tag falls
through with no effect). On an authenticated message with non-zero
finger id it forwards the raw `hw_auth_token_t` bytes and, only when
the callback invocation reports `isOk`, makes one
`sendAuthenticatedBoostHint` attempt. -/
def notify (env : NotifyEnv) (s : BoostState) (msg : FingerprintMsg) : NotifyResult :=
  if env.clientRegistered = false then ⟨[], s, 0⟩
  else if msg.type = FINGERPRINT_ERROR then
    let r := VendorErrorFilter msg.data.error
    ⟨[ClientCall.onError env.devId r.1 r.2], s, 0⟩
  else if msg.type = FINGERPRINT_ACQUIRED then
    let r := VendorAcquiredFilter msg.data.acquired_info
    ⟨[ClientCall.onAcquired env.devId r.1 r.2], s, 0⟩
  else if msg.type = FINGERPRINT_TEMPLATE_ENROLLING then
    ⟨[ClientCall.onEnrollResult env.devId msg.data.enroll_fid msg.data.enroll_gid
        msg.data.samples_remaining], s, 0⟩
  else if msg.type = FINGERPRINT_TEMPLATE_REMOVED then
    ⟨[ClientCall.onRemoved env.devId msg.data.removed_fid msg.data.removed_gid
        msg.data.removed_remaining], s, 0⟩
  else if msg.type = FINGERPRINT_AUTHENTICATED then
    if msg.data.auth_fid ≠ 0 then
      let call := ClientCall.onAuthenticated env.devId msg.data.auth_fid
        msg.data.auth_gid (hwAuthTokenBytes msg.data.auth_hat)
      if env.cbOk then
        let b := sendAuthenticatedBoostHint env.penv s
        ⟨[call], b.2.1, 1⟩
      else ⟨[call], s, 0⟩
    else
      ⟨[ClientCall.onAuthenticated env.devId msg.data.auth_fid msg.data.auth_gid []],
       s, 0⟩
  else if msg.type = FINGERPRINT_TEMPLATE_ENUMERATING then
    ⟨[ClientCall.onEnumerate env.devId msg.data.enum_fid msg.data.enum_gid
        msg.data.enum_remaining], s, 0⟩
  else ⟨[], s, 0⟩

/-! ## setActiveGroup validation -/

/-- Linux `PATH_MAX`. -/
def PATH_MAX : Nat := 4096

/-- External context of one `setActiveGroup` call: whether
`access(storePath, W_OK)` reports the path writable, and the driver's
`set_active_group` return code. -/
structure SagEnv where
  writable : Bool
  driverRet : Int
  deriving DecidableEq, Repr

/-- Embedding of `BiometricsFingerprint::setActiveGroup`: validates the
store path (non-empty, shorter than `PATH_MAX`, writable) before
forwarding to the driver; returns the status and the number of
`set_active_group` driver invocations made. -/
def setActiveGroup (env : SagEnv) (_gid : Nat) (storePath : String) : RequestStatus × Nat :=
  if storePath.utf8ByteSize ≥ PATH_MAX ∨ storePath.utf8ByteSize ≤ 0 then
    (RequestStatus.SYS_EINVAL, 0)
  else if env.writable = false then (RequestStatus.SYS_EINVAL, 0)
  else (ErrorFilter env.driverRet, 1)

/-! ## Bridge initialisation (module discovery) -/

/-- Static module table `kModules` in declaration order: module class
name and supports-FOD flag. -/
def kModules : List (String × Bool) :=
  [("fpc", false), ("fpc_fod", true), ("goodix", false), ("goodix_fod", true),
   ("goodix_fod6", true), ("silead", false), ("syna", true)]

/-- First module of the table that opens successfully (the constructor's
loop with `break`), given which class names `openHal` succeeds on. -/
def findModule (opens : String → Bool) : List (String × Bool) → Option (String × Bool)
  | [] => none
  | m :: rest => if opens m.1 then some m else findModule opens rest

/-- Observable outcome of the `BiometricsFingerprint` constructor: the
opened device (by module class name, `none` when no module opened), the
recorded FOD flag, and the system properties written. -/
structure InitResult where
  device : Option String
  fod : Bool
  props : List (String × String)
  deriving DecidableEq, Repr

/-- Embedding of the `BiometricsFingerprint` constructor's module
discovery: iterates `kModules` in order, stops at the first module that
opens, records its FOD flag and writes the module name to
`persist.vendor.sys.fp.vendor` (plus `ro.hardware.fp.fod` for FOD
modules); when no module opens the device stays null and no property is
written. -/
def bridgeInit (opens : String → Bool) : InitResult :=
  match findModule opens kModules with
  | some m =>
      { device := some m.1
        fod := m.2
        props := [(("persist.vendor.sys.fp.vendor"), m.1)] ++
          (if m.2 then [(("ro.hardware.fp.fod"), ("true"))] else []) }
  | none => { device := none, fod := false, props := [] }

/-! ## FOD watcher thread -/

/-- Extended-command id `COMMAND_NIT` and its parameters. -/
def COMMAND_NIT : Int := 10
def PARAM_NIT_FOD : Int := 1
def PARAM_NIT_NONE : Int := 0

/-- Outcome of one read of the FOD kernel file inside `readBool`: the
seek failing, the read returning a count other than 1, or a character
successfully read. -/
inductive ReadOutcome where
  | seekFail
  | readFail
  | readChar (c : Char)
  deriving DecidableEq, Repr

/-- Embedding of `readBool`: `false` on a seek or read failure, else
whether the character read differs from zero. -/
def readBool : ReadOutcome → Bool
  | ReadOutcome.seekFail => false
  | ReadOutcome.readFail => false
  | ReadOutcome.readChar c => c ≠ '0'

/-- Outcome of one `poll` wait of the watcher loop: the poll call
failing, or a wake followed by a read of the file. -/
inductive PollOutcome where
  | pollError
  | wake (r : ReadOutcome)
  deriving DecidableEq, Repr

/-- Extended commands issued by one iteration of the watcher loop: a
poll failure issues nothing and loops again; a wake issues
`extCmd(COMMAND_NIT, readBool(fd) ? PARAM_NIT_FOD : PARAM_NIT_NONE)`. -/
def watcherStep : PollOutcome → List (Int × Int)
  | PollOutcome.pollError => []
  | PollOutcome.wake r =>
      [(COMMAND_NIT, if readBool r then PARAM_NIT_FOD else PARAM_NIT_NONE)]

/-- Extended commands issued by the watcher loop over a finite prefix of
its (infinite) iterations: every iteration is processed, with no
backoff and no failure limit. -/
def watcherRun : List PollOutcome → List (Int × Int)
  | [] => []
  | p :: rest => watcherStep p ++ watcherRun rest

/-- Embedding of the watcher thread body: a failure to open the FOD
kernel file aborts the thread (`none`); otherwise the loop runs and the
commands of every iteration are issued. -/
def watcherThread (openOk : Bool) (iters : List PollOutcome) : Option (List (Int × Int)) :=
  if openOk then some (watcherRun iters) else none

/-! ## Variant selector (`src/init/init_xiaomi_raphael.cpp`) -/

/-- Embedding of `variant_info_t` from `libinit_variant`. -/
structure VariantInfo where
  hwc_value : String
  sku_value : String
  brand : String
  device : String
  marketname : String
  model : String
  build_fingerprint : String
  nfc : Bool
  deriving DecidableEq, Repr

/-- The India variant record `raphaelin_info`. -/
def raphaelin_info : VariantInfo :=
  { hwc_value := "INDIA"
    sku_value := ""
    brand := "Xiaomi"
    device := "raphaelin"
    marketname := "Redmi K20 Pro"
    model := "MZB7751IN"
    build_fingerprint :=
      "Xiaomi/raphaelin/raphaelin:11/RKQ1.200826.002/V12.5.1.0.RFKINXM:user/release-keys"
    nfc := false }

/-- The global variant record `raphael_global_info`. -/
def raphael_global_info : VariantInfo :=
  { hwc_value := "GLOBAL"
    sku_value := ""
    brand := "Xiaomi"
    device := "raphael"
    marketname := "Mi 9T Pro"
    model := "M1903F11G"
    build_fingerprint :=
      "Xiaomi/raphael/raphael:11/RKQ1.200826.002/V12.5.2.0.RFKMIXM:user/release-keys"
    nfc := true }

/-- The fallback variant record `raphael_info` (both match fields
empty). -/
def raphael_info : VariantInfo :=
  { hwc_value := ""
    sku_value := ""
    brand := "Xiaomi"
    device := "raphael"
    marketname := "Redmi K20 Pro"
    model := "M1903F11A"
    build_fingerprint :=
      "Xiaomi/raphael/raphael:11/RKQ1.200826.002/V12.5.6.0.RFKCNXM:user/release-keys"
    nfc := true }

/-- The static variant table `variants` in declaration order. -/
def variants : List VariantInfo := [raphaelin_info, raphael_global_info, raphael_info]

/-- Modelled from the spec: `search_variant` of `libinit_variant` is not
under `src/`; per the spec, variant records are matched against the
runtime-read hardware and SKU identifiers by equality, an empty match
field acts as a wildcard, and the first matching record wins. This
predicate states whether one record matches the identifiers. -/
def variantMatches (v : VariantInfo) (hwc sku : String) : Bool :=
  (v.hwc_value = "" || v.hwc_value = hwc) && (v.sku_value = "" || v.sku_value = sku)

/-- Modelled from the spec: the variant-selector scan — the first record
of the table whose non-empty match fields all equal the runtime
identifiers is selected. -/
def search_variant (hwc sku : String) : Option VariantInfo :=
  variants.find? (fun v => variantMatches v hwc sku)

/-! ## Sample inputs used by witness theorems -/

/-- Sample authentication token used to exercise the notify dispatcher. -/
def sampleHat : HwAuthToken := ⟨1, 2, 3, 4, 5, 6, fun _ => 7⟩

/-- Sample authenticated-message payload with non-zero finger id. -/
def sampleAuthData : FingerMsgData :=
  { error := 0, acquired_info := 0, enroll_fid := 0, enroll_gid := 0,
    samples_remaining := 0, removed_fid := 0, removed_gid := 0,
    removed_remaining := 0, auth_fid := 3, auth_gid := 4, auth_hat := sampleHat,
    enum_fid := 0, enum_gid := 0, enum_remaining := 0 }

/-- Sample notify environment: registered client, succeeding callback,
healthy power service. -/
def sampleNotifyEnv : NotifyEnv :=
  { clientRegistered := true, cbOk := true, devId := 9,
    penv := ⟨true, BinderOutcome.ok, true, BinderOutcome.ok⟩ }

/-! ## Helper lemmas -/

/-- The raw byte image of a `hw_auth_token_t` always has the struct's
fixed size of 69 bytes. -/
theorem hwAuthTokenBytes_length (t : HwAuthToken) :
    (hwAuthTokenBytes t).length = hwAuthTokenSize := by
  simp [hwAuthTokenBytes, natLeBytes, hwAuthTokenSize]

/-- The constructor's module scan finds the first successfully opening
module of the table. -/
theorem findModule_append (opens : String → Bool) (l1 : List (String × Bool))
    (m : String × Bool) (l2 : List (String × Bool))
    (h1 : ∀ m' ∈ l1, opens m'.1 = false) (hm : opens m.1 = true) :
    findModule opens (l1 ++ m :: l2) = some m := by
  induction l1 with
  | nil => simp [findModule, hm]
  | cons a rest ih =>
      have ha : opens a.1 = false := h1 a (by simp)
      simp only [List.cons_append, findModule, ha]
      exact ih (fun m' hm' => h1 m' (by simp [hm']))

/-- The constructor's module scan finds nothing when no module opens. -/
theorem findModule_none (opens : String → Bool) (l : List (String × Bool))
    (h : ∀ m ∈ l, opens m.1 = false) : findModule opens l = none := by
  induction l with
  | nil => rfl
  | cons a rest ih =>
      have ha : opens a.1 = false := h a (by simp)
      simp only [findModule, ha]
      exact ih (fun m hm => h m (by simp [hm]))

/-! ## Claim theorems -/

/-- C2: `ErrorFilter` is total on the integers and maps 0 to `SYS_OK`,
-2 to `SYS_ENOENT`, -4 to `SYS_EINTR`, -5 to `SYS_EIO`, -11 to
`SYS_EAGAIN`, -12 to `SYS_ENOMEM`, -13 to `SYS_EACCES`, -14 to
`SYS_EFAULT`, -16 to `SYS_EBUSY`, -22 to `SYS_EINVAL`, -28 to
`SYS_ENOSPC`, -110 to `SYS_ETIMEDOUT`, and every other input to
`SYS_UNKNOWN`. -/
theorem C2_ErrorFilter_table :
    (∀ e : Int,
      e ∉ ([0, -2, -4, -5, -11, -12, -13, -14, -16, -22, -28, -110] : List Int) →
      ErrorFilter e = RequestStatus.SYS_UNKNOWN) ∧
    ErrorFilter 0 = RequestStatus.SYS_OK ∧
    ErrorFilter (-2) = RequestStatus.SYS_ENOENT ∧
    ErrorFilter (-4) = RequestStatus.SYS_EINTR ∧
    ErrorFilter (-5) = RequestStatus.SYS_EIO ∧
    ErrorFilter (-11) = RequestStatus.SYS_EAGAIN ∧
    ErrorFilter (-12) = RequestStatus.SYS_ENOMEM ∧
    ErrorFilter (-13) = RequestStatus.SYS_EACCES ∧
    ErrorFilter (-14) = RequestStatus.SYS_EFAULT ∧
    ErrorFilter (-16) = RequestStatus.SYS_EBUSY ∧
    ErrorFilter (-22) = RequestStatus.SYS_EINVAL ∧
    ErrorFilter (-28) = RequestStatus.SYS_ENOSPC ∧
    ErrorFilter (-110) = RequestStatus.SYS_ETIMEDOUT := by
  refine ⟨?_, by decide, by decide, by decide, by decide, by decide, by decide,
    by decide, by decide, by decide, by decide, by decide, by decide⟩
  intro e he
  simp only [List.mem_cons, List.not_mem_nil, or_false, not_or] at he
  obtain ⟨h0, h2, h4, h5, h11, h12, h13, h14, h16, h22, h28, h110⟩ := he
  simp [ErrorFilter, h0, h2, h4, h5, h11, h12, h13, h14, h16, h22, h28, h110]

/-- Witness for C2: a code outside the table maps to `SYS_UNKNOWN`. -/
theorem C2_witness : ErrorFilter 12345 = RequestStatus.SYS_UNKNOWN :=
  C2_ErrorFilter_table.1 12345 (by decide)

/-- C3: for every error code distinct from the seven listed vendor error
constants, `VendorErrorFilter` returns the vendor-specific variant with
`vendorCode = code - FINGERPRINT_ERROR_VENDOR_BASE` when the code is at
or above the vendor base, and the unable-to-process variant (with
vendor code 0) when it is below the base. -/
theorem C3_VendorErrorFilter_band :
    ∀ e : Int,
      e ∉ ([FINGERPRINT_ERROR_HW_UNAVAILABLE, FINGERPRINT_ERROR_UNABLE_TO_PROCESS,
        FINGERPRINT_ERROR_TIMEOUT, FINGERPRINT_ERROR_NO_SPACE,
        FINGERPRINT_ERROR_CANCELED, FINGERPRINT_ERROR_UNABLE_TO_REMOVE,
        FINGERPRINT_ERROR_LOCKOUT] : List Int) →
      (FINGERPRINT_ERROR_VENDOR_BASE ≤ e →
        VendorErrorFilter e =
          (FingerprintError.ERROR_VENDOR, e - FINGERPRINT_ERROR_VENDOR_BASE)) ∧
      (e < FINGERPRINT_ERROR_VENDOR_BASE →
        VendorErrorFilter e = (FingerprintError.ERROR_UNABLE_TO_PROCESS, 0)) := by
  intro e he
  simp only [List.mem_cons, List.not_mem_nil, or_false, not_or,
    FINGERPRINT_ERROR_HW_UNAVAILABLE, FINGERPRINT_ERROR_UNABLE_TO_PROCESS,
    FINGERPRINT_ERROR_TIMEOUT, FINGERPRINT_ERROR_NO_SPACE,
    FINGERPRINT_ERROR_CANCELED, FINGERPRINT_ERROR_UNABLE_TO_REMOVE,
    FINGERPRINT_ERROR_LOCKOUT] at he
  obtain ⟨h1, h2, h3, h4, h5, h6, h7⟩ := he
  constructor
  · intro hb
    simp only [FINGERPRINT_ERROR_VENDOR_BASE] at hb
    simp [VendorErrorFilter, FINGERPRINT_ERROR_HW_UNAVAILABLE,
      FINGERPRINT_ERROR_UNABLE_TO_PROCESS, FINGERPRINT_ERROR_TIMEOUT,
      FINGERPRINT_ERROR_NO_SPACE, FINGERPRINT_ERROR_CANCELED,
      FINGERPRINT_ERROR_UNABLE_TO_REMOVE, FINGERPRINT_ERROR_LOCKOUT,
      FINGERPRINT_ERROR_VENDOR_BASE, h1, h2, h3, h4, h5, h6, h7, hb]
  · intro hb
    simp only [FINGERPRINT_ERROR_VENDOR_BASE] at hb
    have hnb : ¬((1000 : Int) ≤ e) := by omega
    simp [VendorErrorFilter, FINGERPRINT_ERROR_HW_UNAVAILABLE,
      FINGERPRINT_ERROR_UNABLE_TO_PROCESS, FINGERPRINT_ERROR_TIMEOUT,
      FINGERPRINT_ERROR_NO_SPACE, FINGERPRINT_ERROR_CANCELED,
      FINGERPRINT_ERROR_UNABLE_TO_REMOVE, FINGERPRINT_ERROR_LOCKOUT,
      FINGERPRINT_ERROR_VENDOR_BASE, h1, h2, h3, h4, h5, h6, h7, hnb]

/-- Witness for C3: an in-band code 1500 yields the vendor variant with
vendor code 500; the unlisted below-base code 0 yields
unable-to-process. -/
theorem C3_witness :
    VendorErrorFilter 1500 = (FingerprintError.ERROR_VENDOR, 500) ∧
    VendorErrorFilter 0 = (FingerprintError.ERROR_UNABLE_TO_PROCESS, 0) := by
  constructor
  · have h := (C3_VendorErrorFilter_band 1500 (by decide)).1 (by decide)
    simpa [FINGERPRINT_ERROR_VENDOR_BASE] using h
  · exact (C3_VendorErrorFilter_band 0 (by decide)).2 (by decide)

/-- C9: both vendor filters write the secondary vendor code on every
call: it equals the input minus the respective vendor base exactly when
the vendor-specific variant is returned, and 0 otherwise. -/
theorem C9_vendorCode_written :
    ∀ e : Int,
      (VendorErrorFilter e).2 =
        (if (VendorErrorFilter e).1 = FingerprintError.ERROR_VENDOR
         then e - FINGERPRINT_ERROR_VENDOR_BASE else 0) ∧
      (VendorAcquiredFilter e).2 =
        (if (VendorAcquiredFilter e).1 = FingerprintAcquiredInfo.ACQUIRED_VENDOR
         then e - FINGERPRINT_ACQUIRED_VENDOR_BASE else 0) := by
  intro e
  constructor
  · simp only [VendorErrorFilter]
    split_ifs <;> simp_all
  · simp only [VendorAcquiredFilter]
    split_ifs <;> simp_all

/-- C1: on an authenticated driver message handled while a client
callback is registered, a zero finger id delivers `onAuthenticated` with
an empty token and no boost attempt; a non-zero finger id delivers a
token of the fixed `hw_auth_token_t` size, with exactly one
`sendAuthenticatedBoostHint` attempt when the callback invocation
succeeds and none when it fails. -/
theorem C1_notify_authenticated :
    ∀ (env : NotifyEnv) (s : BoostState) (d : FingerMsgData),
      env.clientRegistered = true →
      (d.auth_fid = 0 →
        notify env s ⟨FINGERPRINT_AUTHENTICATED, d⟩ =
          ⟨[ClientCall.onAuthenticated env.devId d.auth_fid d.auth_gid []], s, 0⟩) ∧
      (d.auth_fid ≠ 0 →
        notify env s ⟨FINGERPRINT_AUTHENTICATED, d⟩ =
          ⟨[ClientCall.onAuthenticated env.devId d.auth_fid d.auth_gid
              (hwAuthTokenBytes d.auth_hat)],
           if env.cbOk then (sendAuthenticatedBoostHint env.penv s).2.1 else s,
           if env.cbOk then 1 else 0⟩ ∧
        (hwAuthTokenBytes d.auth_hat).length = hwAuthTokenSize) := by
  intro env s d hreg
  constructor
  · intro h0
    simp [notify, hreg, h0, FINGERPRINT_ERROR, FINGERPRINT_ACQUIRED,
      FINGERPRINT_TEMPLATE_ENROLLING, FINGERPRINT_TEMPLATE_REMOVED,
      FINGERPRINT_AUTHENTICATED, FINGERPRINT_TEMPLATE_ENUMERATING]
  · intro h0
    refine ⟨?_, hwAuthTokenBytes_length d.auth_hat⟩
    cases hcb : env.cbOk <;>
      simp [notify, hreg, h0, hcb, FINGERPRINT_ERROR, FINGERPRINT_ACQUIRED,
        FINGERPRINT_TEMPLATE_ENROLLING, FINGERPRINT_TEMPLATE_REMOVED,
        FINGERPRINT_AUTHENTICATED, FINGERPRINT_TEMPLATE_ENUMERATING]

/-- Witness for C1: a sample authenticated message with finger id 3 and a
registered, succeeding client callback delivers the full-size token and
one boost attempt. -/
theorem C1_witness :
    notify sampleNotifyEnv ⟨false, false, false⟩ ⟨FINGERPRINT_AUTHENTICATED, sampleAuthData⟩ =
      ⟨[ClientCall.onAuthenticated sampleNotifyEnv.devId sampleAuthData.auth_fid
          sampleAuthData.auth_gid (hwAuthTokenBytes sampleAuthData.auth_hat)],
       if sampleNotifyEnv.cbOk then
         (sendAuthenticatedBoostHint sampleNotifyEnv.penv ⟨false, false, false⟩).2.1
       else ⟨false, false, false⟩,
       if sampleNotifyEnv.cbOk then 1 else 0⟩ ∧
    (hwAuthTokenBytes sampleAuthData.auth_hat).length = hwAuthTokenSize :=
  (C1_notify_authenticated sampleNotifyEnv ⟨false, false, false⟩ sampleAuthData rfl).2
    (by decide)

/-- C10: a driver message whose type tag is none of the six handled tags,
or any message arriving while no client callback is registered, produces
no client callback invocation, no boost attempt, and leaves the bridge
boost state unchanged. -/
theorem C10_notify_default :
    ∀ (env : NotifyEnv) (s : BoostState) (msg : FingerprintMsg),
      (msg.type ∉ ([FINGERPRINT_ERROR, FINGERPRINT_ACQUIRED,
          FINGERPRINT_TEMPLATE_ENROLLING, FINGERPRINT_TEMPLATE_REMOVED,
          FINGERPRINT_AUTHENTICATED, FINGERPRINT_TEMPLATE_ENUMERATING] : List Int) ∨
        env.clientRegistered = false) →
      notify env s msg = ⟨[], s, 0⟩ := by
  intro env s msg h
  rcases h with h | h
  · simp only [List.mem_cons, List.not_mem_nil, or_false, not_or] at h
    obtain ⟨he, ha, hen, hr, hau, hem⟩ := h
    cases hreg : env.clientRegistered
    · simp [notify, hreg]
    · simp [notify, hreg, he, ha, hen, hr, hau, hem]
  · simp [notify, h]

/-- Witness for C10: an unhandled type tag 99 is dropped silently. -/
theorem C10_witness :
    notify sampleNotifyEnv ⟨false, false, false⟩ ⟨99, sampleAuthData⟩ =
      ⟨[], ⟨false, false, false⟩, 0⟩ :=
  C10_notify_default sampleNotifyEnv ⟨false, false, false⟩ ⟨99, sampleAuthData⟩
    (Or.inl (by decide))

/-- C5: once the boost capability is cached as unsupported, every call to
`isBoostHintSupported` returns the not-supported indicator with zero
power-service queries and unchanged state; a binder transport failure
during the capability query resets the cached connection, returns the
distinct not-connected indicator, and neither sets the checked flag nor
caches an unsupported result. -/
theorem C5_boost_cache :
    ∀ (env : PowerEnv) (s : BoostState),
      (s.boostHintSupportIsChecked = true → s.boostHintIsSupported = false →
        isBoostHintSupported env s = (-EOPNOTSUPP, s, 0)) ∧
      (s.boostHintSupportIsChecked = false → s.powerHalConnected = true →
        env.queryOutcome = BinderOutcome.transactionFailed →
        isBoostHintSupported env s =
          (-ENOTCONN, { s with powerHalConnected := false }, 1) ∧
        (-ENOTCONN : Int) ≠ -EOPNOTSUPP) := by
  intro env s
  constructor
  · intro hc hs
    simp [isBoostHintSupported, hc, hs]
  · intro hc hconn hq
    refine ⟨?_, by decide⟩
    have hL : (("LAUNCH") : String).isEmpty = false := rfl
    simp [isBoostHintSupported, checkPowerHalExtBoostSupport, connectPowerHalExt,
      hc, hconn, hq, kBoostHint, NO_ERROR, EINVAL, ENOTCONN, EOPNOTSUPP, hL]

/-- Witness for C5: a cached-unsupported state answers from the cache; a
transport failure on a connected service resets only the connection. -/
theorem C5_witness :
    isBoostHintSupported ⟨true, BinderOutcome.ok, true, BinderOutcome.ok⟩
        ⟨false, true, false⟩ = (-EOPNOTSUPP, ⟨false, true, false⟩, 0) ∧
    isBoostHintSupported ⟨true, BinderOutcome.transactionFailed, false, BinderOutcome.ok⟩
        ⟨false, false, true⟩ = (-ENOTCONN, ⟨false, false, false⟩, 1) :=
  ⟨(C5_boost_cache ⟨true, BinderOutcome.ok, true, BinderOutcome.ok⟩
      ⟨false, true, false⟩).1 rfl rfl,
   ((C5_boost_cache ⟨true, BinderOutcome.transactionFailed, false, BinderOutcome.ok⟩
      ⟨false, false, true⟩).2 rfl rfl rfl).1⟩

/-- C4: `setActiveGroup` rejects an empty, over-long, or non-writable
store path with `SYS_EINVAL` and zero driver invocations; any other path
is forwarded to the driver exactly once with the return code mapped
through `ErrorFilter`. -/
theorem C4_setActiveGroup :
    ∀ (env : SagEnv) (gid : Nat) (storePath : String),
      ((storePath.utf8ByteSize = 0 ∨ PATH_MAX ≤ storePath.utf8ByteSize ∨
          env.writable = false) →
        setActiveGroup env gid storePath = (RequestStatus.SYS_EINVAL, 0)) ∧
      ((0 < storePath.utf8ByteSize ∧ storePath.utf8ByteSize < PATH_MAX ∧
          env.writable = true) →
        setActiveGroup env gid storePath = (ErrorFilter env.driverRet, 1)) := by
  intro env gid storePath
  constructor
  · intro h
    unfold setActiveGroup
    by_cases h1 : storePath.utf8ByteSize ≥ PATH_MAX ∨ storePath.utf8ByteSize ≤ 0
    · rw [if_pos h1]
    · rw [if_neg h1]
      have hw : env.writable = false := by
        rcases h with h | h | h
        · exact absurd (Or.inr (by omega)) h1
        · exact absurd (Or.inl h) h1
        · exact h
      simp [hw]
  · rintro ⟨ha, hb, hc⟩
    unfold setActiveGroup
    have hn : ¬(storePath.utf8ByteSize ≥ PATH_MAX ∨ storePath.utf8ByteSize ≤ 0) := by
      omega
    rw [if_neg hn]
    simp [hc]

/-- Witness for C4: the empty path is rejected without a driver call; a
short writable path forwards once and maps the driver's 0 to `SYS_OK`. -/
theorem C4_witness :
    setActiveGroup ⟨true, 0⟩ 1 ("") = (RequestStatus.SYS_EINVAL, 0) ∧
    setActiveGroup ⟨true, 0⟩ 1 ("/data") = (RequestStatus.SYS_OK, 1) := by
  constructor
  · exact (C4_setActiveGroup ⟨true, 0⟩ 1 ("")).1 (Or.inl (by decide))
  · have h := (C4_setActiveGroup ⟨true, 0⟩ 1 ("/data")).2
      ⟨by decide, by decide, rfl⟩
    simpa [ErrorFilter] using h

/-- C7: bridge initialisation scans the static module table in its fixed
declaration order, stops at the first module that opens, records its FOD
flag and writes the module name to the vendor system property; when no
module opens the device handle stays null and the constructor completes
with the bridge inert. -/
theorem C7_bridge_init :
    kModules = [("fpc", false), ("fpc_fod", true), ("goodix", false),
      ("goodix_fod", true), ("goodix_fod6", true), ("silead", false),
      ("syna", true)] ∧
    (∀ (opens : String → Bool) (l1 : List (String × Bool)) (m : String × Bool)
        (l2 : List (String × Bool)),
      kModules = l1 ++ m :: l2 → (∀ m' ∈ l1, opens m'.1 = false) →
      opens m.1 = true →
      bridgeInit opens =
        ⟨some m.1, m.2,
         [(("persist.vendor.sys.fp.vendor"), m.1)] ++
           (if m.2 then [(("ro.hardware.fp.fod"), ("true"))] else [])⟩) ∧
    (∀ opens : String → Bool, (∀ m ∈ kModules, opens m.1 = false) →
      bridgeInit opens = ⟨none, false, []⟩) := by
  refine ⟨rfl, ?_, ?_⟩
  · intro opens l1 m l2 hsplit h1 hm
    unfold bridgeInit
    rw [hsplit, findModule_append opens l1 m l2 h1 hm]
  · intro opens h
    unfold bridgeInit
    rw [findModule_none opens kModules h]

/-- Witness for C7: when only `goodix_fod` opens, the scan skips the
first three modules, selects it, records its FOD flag and writes both
properties. -/
theorem C7_witness :
    bridgeInit (fun n => n == ("goodix_fod")) =
      ⟨some ("goodix_fod"), true,
       [(("persist.vendor.sys.fp.vendor"), ("goodix_fod")),
        (("ro.hardware.fp.fod"), ("true"))]⟩ := by
  have h := C7_bridge_init.2.1 (fun n => n == ("goodix_fod"))
    [("fpc", false), ("fpc_fod", true), ("goodix", false)] (("goodix_fod"), true)
    [("goodix_fod6", true), ("silead", false), ("syna", true)]
    (by decide) (by decide) (by decide)
  simpa using h

/-- C8: the variant selector scans the three-record table in declaration
order with first match winning: a hardware id equal to INDIA selects the
raphaelin record regardless of the SKU identifier, and a hardware id
matching neither non-empty match field selects the final wildcard
record. -/
theorem C8_variant_selector :
    (∀ sku : String, search_variant ("INDIA") sku = some raphaelin_info) ∧
    (∀ hwc sku : String, hwc ≠ ("INDIA") → hwc ≠ ("GLOBAL") →
      search_variant hwc sku = some raphael_info) := by
  constructor
  · intro sku
    simp [search_variant, variants, variantMatches, raphaelin_info]
  · intro hwc sku h1 h2
    have h1' : ¬(("INDIA") = hwc) := fun h => h1 h.symm
    have h2' : ¬(("GLOBAL") = hwc) := fun h => h2 h.symm
    simp [search_variant, variants, variantMatches, raphaelin_info,
      raphael_global_info, raphael_info, h1', h2']

/-- Witness for C8: hardware id INDIA with an arbitrary SKU selects the
India record; an unrecognised hardware id selects the wildcard
fallback. -/
theorem C8_witness :
    search_variant ("INDIA") ("anything") = some raphaelin_info ∧
    search_variant ("CN") ("x") = some raphael_info :=
  ⟨C8_variant_selector.1 ("anything"),
   C8_variant_selector.2 ("CN") ("x") (by decide) (by decide)⟩

/-- C6: the FOD watcher aborts when the kernel interface file fails to
open; after a successful poll wake with a successful single-character
read it issues extended command 10 with parameter 1 for a character
other than zero and 0 for the zero character; poll and read failures are
transient — every subsequent iteration is still processed, with no
backoff and no failure limit. -/
theorem C6_fod_watcher :
    (∀ iters : List PollOutcome, watcherThread false iters = none) ∧
    (∀ c : Char,
      watcherStep (PollOutcome.wake (ReadOutcome.readChar c)) =
        [(COMMAND_NIT, if c ≠ '0' then PARAM_NIT_FOD else PARAM_NIT_NONE)]) ∧
    (∀ (p : PollOutcome) (rest : List PollOutcome),
      watcherRun (p :: rest) = watcherStep p ++ watcherRun rest) ∧
    (∀ rest : List PollOutcome,
      watcherRun (PollOutcome.pollError :: rest) = watcherRun rest) ∧
    (∀ rest : List PollOutcome,
      watcherRun (PollOutcome.wake ReadOutcome.readFail :: rest) =
        (COMMAND_NIT, PARAM_NIT_NONE) :: watcherRun rest) := by
  refine ⟨fun iters => rfl, ?_, fun p rest => rfl, fun rest => rfl, fun rest => rfl⟩
  intro c
  simp [watcherStep, readBool]
